import Mathlib

/-!
# ALTCOM command adapters: `lte_getdynamicpsm.c`, `md_digest.c`, `x509write_crt_serial.c`

A shallow embedding of the three command adapters.  Every function of the three
source files is a Lean function over an explicit run state `Run`: the `World`
(callback registry, status observers, live gateway buffers, errno) together with
the `trace` of the steps the run has performed so far (external calls, loads from
the response storage, stores into the caller's output).  What the external
collaborators answer (the command gateway, the power-state check, the PSM
converters, the user callbacks) is fixed by an `Env`, as are the header constants
whose declarations are not part of the sources at hand.  `DBGIF_LOG*` calls only
print and are left out.
-/

namespace Altcom

/-! ## Constants of `<errno.h>`, `lte/lte_api.h`, `altcom_status.h`, `mbedtls/*.h` -/

/-- Modelled from the spec: `EINVAL` of `<errno.h>` (not among the sources), the errno
number of the "invalid argument" category; a failure is returned as its negation. -/
def EINVAL : Int := 22

/-- Modelled from the spec: `ENOMEM` of `<errno.h>` (not among the sources), the errno
number of the "out of memory" category. -/
def ENOMEM : Int := 12

/-- Modelled from the spec: `EPROTO` of `<errno.h>` (not among the sources), the errno
number of the "protocol error" category. -/
def EPROTO : Int := 71

/-- Modelled from the spec: `EFAULT` of `<errno.h>` (not among the sources), the errno
number of the "internal fault" category. -/
def EFAULT : Int := 14

/-- Modelled from the spec: `ENETDOWN` of `<errno.h>` (not among the sources), the errno
number of the "network down" category. -/
def ENETDOWN : Int := 100

/-- Modelled from the spec: `ALTCOM_ENETDOWN` of `altcom_errno.h` (not among the
sources), the errno value stored by `altcom_seterrno` when the library is not
initialised. -/
def ALTCOM_ENETDOWN : Int := 100

/-- Modelled from the spec: `LTE_RESULT_OK` of `lte/lte_api.h` (not among the sources),
the result code that signals success, on the wire and to the callback. -/
def LTE_RESULT_OK : Int := 0

/-- Modelled from the spec: `LTE_RESULT_ERROR` of `lte/lte_api.h` (not among the
sources), the result code that signals failure to the callback. -/
def LTE_RESULT_ERROR : Int := 1

/-- Modelled from the spec: `ALTCOM_STATUS_REG_KEEP` of `altcom_status.h` (not among
the sources), the observer directive "keep". -/
def ALTCOM_STATUS_REG_KEEP : Int := 0

/-- Modelled from the spec: `ALTCOM_STATUS_REG_CLR` of `altcom_status.h` (not among the
sources), the observer directive "clear". -/
def ALTCOM_STATUS_REG_CLR : Int := 1

/-- Modelled from the spec: `MBEDTLS_ERR_MD_ALLOC_FAILED` of `mbedtls/md.h` (not among
the sources), a negative code. -/
def MBEDTLS_ERR_MD_ALLOC_FAILED : Int := -0x5180

/-- Modelled from the spec: `MBEDTLS_ERR_MD_FILE_IO_ERROR` of `mbedtls/md.h` (not among
the sources), a negative code. -/
def MBEDTLS_ERR_MD_FILE_IO_ERROR : Int := -0x5200

/-- Modelled from the spec: `MBEDTLS_ERR_X509_BAD_INPUT_DATA` of `mbedtls/x509.h` (not
among the sources), a negative code. -/
def MBEDTLS_ERR_X509_BAD_INPUT_DATA : Int := -0x2800

/-! ## Data -/

/-- Modelled from the spec: `lte_psm_timeval_t` of `lte/lte_api.h` (the header is not
among the sources), a timer unit and a timer value. -/
structure lte_psm_timeval_t where
  unit : Nat
  time_val : Nat
deriving DecidableEq, Repr

/-- Modelled from the spec: `lte_psm_setting_t` of `lte/lte_api.h` (the header is not
among the sources), the typed PSM settings value handed to the caller. -/
structure lte_psm_setting_t where
  enable : Bool
  req_active_time : lte_psm_timeval_t
  ext_periodic_tau_time : lte_psm_timeval_t
deriving DecidableEq, Repr

/-- The value `memset(&psm_set, 0, sizeof(lte_psm_setting_t))` leaves in `psm_set`. -/
def lte_psm_setting_t.zero : lte_psm_setting_t :=
  { enable := false
    req_active_time := { unit := 0, time_val := 0 }
    ext_periodic_tau_time := { unit := 0, time_val := 0 } }

/-- Modelled from the spec: `struct apicmd_cmddat_psm_set_s` of `apicmd_getdynamicpsm.h`
(not among the sources), the settings field of the wire response, as its bytes. -/
structure apicmd_cmddat_psm_set_s where
  bytes : List Nat
deriving DecidableEq, Repr

/-- Modelled from the spec: `struct apicmd_cmddat_getdynamicpsmres_s` (declared in
`apicmd_getdynamicpsm.h`, not among the sources): the wire result code and the wire
settings; the source reads exactly the members `result` and `set`. -/
structure apicmd_cmddat_getdynamicpsmres_s where
  result : Int
  set : apicmd_cmddat_psm_set_s
deriving DecidableEq, Repr

/-- The private request type of `md_digest.c`. -/
structure md_digest_req_s where
  md_id : Nat
  chain_id : Nat
deriving DecidableEq, Repr

/-- Modelled from the spec: `struct apicmd_md_digestres_s` (declared in
`apicmd_md_digest.h`, not among the sources): the 32-bit `ret_code` word as the host
loads it and the `output` bytes. -/
structure apicmd_md_digestres_s where
  ret_code : Nat
  output : List Nat
deriving DecidableEq, Repr

/-- The private request type of `x509write_crt_serial.c`. -/
structure x509write_crt_serial_req_s where
  id : Nat
  serial : Nat
deriving DecidableEq, Repr

/-- Modelled from the spec: `struct apicmd_x509write_crt_serialres_s` (declared in
`apicmd_x509write_crt_serial.h`, not among the sources): the 32-bit `ret_code` word as
the host loads it. -/
structure apicmd_x509write_crt_serialres_s where
  ret_code : Nat
deriving DecidableEq, Repr

/-- A status-change observer, identified by the function that is registered. -/
inductive Observer where
  | getdynamicpsm_status_chg_cb
  | other (n : Nat)
deriving DecidableEq, Repr

/-- One step of a run: a call of an external collaborator (with what it answered where
the answer is not fixed by the state), a load from the response storage, or a store
into the caller's output. -/
inductive Event where
  | altcombs_check_poweron_status (ret : Int)
  | apicmdgw_get_cmdid (id : Nat) (cmdid : Nat)
  | apicmdgw_get_protocolversion (ver : Int)
  | lte_getpsm_impl (type : Int) (settings : Bool) (callback : Option Nat)
  | altcombs_setup_apicallback (id : Nat) (callback : Option Nat) (stat : Observer)
      (ret : Int)
  | apicmdgw_cmd_allocbuff (cmdid : Nat) (len : Nat) (buff : Option Nat)
  | apicmdgw_send (cmd : Nat) (payload : List Nat) (res : Option Nat) (resbufflen : Nat)
      (ret : Int) (reslen : Nat)
  | altcom_free_cmd (buff : Nat)
  | altcombs_set_psm (set : apicmd_cmddat_psm_set_s) (ret : Int)
  | altcombs_check_psm (psm : lte_psm_setting_t) (ret : Int)
  | altcombs_teardown_apicallback (id : Nat) (stat : Observer)
  | altcomcallbacks_unreg_cb (id : Nat)
  | altcomcallbacks_get_unreg_cb (id : Nat) (ret : Int) (callback : Option Nat)
  | altcomstatus_unreg_statchgcb (stat : Observer)
  | callback (fn : Nat) (result : Int) (psm : lte_psm_setting_t)
  | altcom_isinit (ret : Bool)
  | altcom_seterrno (err : Int)
  | altcom_mbedtls_alloc_cmdandresbuff (id : Nat) (bufflen : Nat) (reslen : Nat)
      (buffs : Option (Nat × Nat))
  | altcom_mbedtls_free_cmdandresbuff (cmd : Nat) (res : Nat)
  | load_result
  | store_output
deriving DecidableEq, Repr

/-- The process-wide state the adapters act on. -/
structure World where
  /-- The callback registry: command identifier and pending callback (`none` is a
  NULL function pointer). -/
  registry : List (Nat × Option Nat)
  /-- The status observers registered with the status notifier. -/
  observers : List Observer
  /-- The gateway buffers that are allocated and not yet released. -/
  live : List Nat
  /-- The value last stored by `altcom_seterrno`. -/
  errno : Int
deriving DecidableEq, Repr

/-- The state threaded through a run: the world and the steps performed so far. -/
structure Run where
  world : World
  trace : List Event
deriving DecidableEq, Repr

/-- The environment of a call: the header constants whose declarations are not among
the sources, and what each external collaborator answers. -/
structure Env where
  /-- `ALTCOM_STATUS_POWER_ON` of `altcom_status.h`. -/
  ALTCOM_STATUS_POWER_ON : Int
  /-- `APICMDID_GET_DYNAMICPSM` of `apicmd.h`. -/
  APICMDID_GET_DYNAMICPSM : Nat
  /-- `APICMDID_UNKNOWN` of `apicmd.h`. -/
  APICMDID_UNKNOWN : Nat
  /-- `APICMDID_TLS_MD_DIGEST` of `apicmd.h`. -/
  APICMDID_TLS_MD_DIGEST : Nat
  /-- `APICMDID_TLS_X509WRITE_CRT_SERIAL` of `apicmd.h`. -/
  APICMDID_TLS_X509WRITE_CRT_SERIAL : Nat
  /-- `APICMD_VER_V1` of `apicmd.h`. -/
  APICMD_VER_V1 : Int
  /-- `APICMD_VER_V4` of `apicmd.h`. -/
  APICMD_VER_V4 : Int
  /-- `ALTCOM_GETPSM_TYPE_NEGOTIATED` of `lte_getpsm.h`. -/
  ALTCOM_GETPSM_TYPE_NEGOTIATED : Int
  /-- `RES_DATA_LEN`, that is `sizeof(struct apicmd_cmddat_getdynamicpsmres_s)`. -/
  RES_DATA_LEN : Nat
  /-- `MD_DIGEST_REQ_DATALEN`, that is `sizeof(struct apicmd_md_digest_s)`. -/
  MD_DIGEST_REQ_DATALEN : Nat
  /-- `MD_DIGEST_RES_DATALEN`, that is `sizeof(struct apicmd_md_digestres_s)`. -/
  MD_DIGEST_RES_DATALEN : Nat
  /-- `APICMD_MD_DIGEST_OUTPUT_LEN` of `apicmd_md_digest.h`. -/
  APICMD_MD_DIGEST_OUTPUT_LEN : Nat
  /-- `X509WRITE_CRT_SERIAL_REQ_DATALEN`. -/
  X509WRITE_CRT_SERIAL_REQ_DATALEN : Nat
  /-- `X509WRITE_CRT_SERIAL_RES_DATALEN`. -/
  X509WRITE_CRT_SERIAL_RES_DATALEN : Nat
  /-- What `altcombs_check_poweron_status()` returns. -/
  poweron_status : Int
  /-- What `altcom_isinit()` returns. -/
  isinit : Bool
  /-- What `apicmdgw_get_cmdid` resolves a logical command identifier to. -/
  get_cmdid : Nat → Nat
  /-- What `apicmdgw_get_protocolversion()` returns. -/
  protocolversion : Int
  /-- What `lte_getpsm_impl(type, settings, callback)` returns, leaves in `*settings`
  and does to the world. -/
  getpsm_impl : Int → Option lte_psm_setting_t → Option Nat → World →
    Int × Option lte_psm_setting_t × World
  /-- What `altcombs_setup_apicallback` returns. -/
  setup_apicallback : Int
  /-- What `apicmdgw_cmd_allocbuff` returns (`none` is NULL). -/
  cmd_allocbuff : Option Nat
  /-- What `altcom_mbedtls_alloc_cmdandresbuff` hands out (`none` when it returns
  false). -/
  alloc_cmdandresbuff : Option (Nat × Nat)
  /-- What `apicmdgw_send` returns. -/
  send_ret : Int
  /-- What `apicmdgw_send` stores into `reslen`. -/
  send_reslen : Nat
  /-- The content of `resbuff` after `apicmdgw_send` (get dynamic PSM). -/
  psm_res : apicmd_cmddat_getdynamicpsmres_s
  /-- The content of `*res` after `apicmdgw_send` (md digest). -/
  md_res : apicmd_md_digestres_s
  /-- The content of `*res` after `apicmdgw_send` (x509write crt serial). -/
  x509_res : apicmd_x509write_crt_serialres_s
  /-- What `altcombs_set_psm` returns and leaves in its destination, from the wire
  settings and the destination's previous content. -/
  set_psm : apicmd_cmddat_psm_set_s → lte_psm_setting_t → Int × lte_psm_setting_t
  /-- What `altcombs_check_psm` returns. -/
  check_psm : lte_psm_setting_t → Int
  /-- What the user callback `fn`, called with `(result, settings)`, does to the
  world. -/
  callback : Nat → Int → lte_psm_setting_t → World → World

/-- Append one step to the trace. -/
def Run.emit (c : Run) (e : Event) : Run :=
  { world := c.world, trace := c.trace ++ [e] }

/-- The steps a run has added to the trace `t0` it started from. -/
def Run.since (c : Run) (t0 : List Event) : List Event :=
  c.trace.drop t0.length

/-- What a function returning `int32_t` through an output slot yields. -/
structure PsmResult where
  ret : Int
  settings : Option lte_psm_setting_t
  run : Run
deriving DecidableEq, Repr

/-- What `md_digest_request` and `mbedtls_md_digest` yield: the return value and the
content of the caller's `output`. -/
structure DigestResult where
  ret : Int
  output : List Nat
  run : Run
deriving DecidableEq, Repr

/-- What a function returning only a code yields. -/
structure CodeResult where
  ret : Int
  run : Run
deriving DecidableEq, Repr

/-- What `altcomcallbacks_get_unreg_cb` yields: the return value and `*callback`. -/
structure LookupResult where
  ret : Int
  callback : Option Nat
  run : Run
deriving DecidableEq, Repr

/-! ## External collaborators -/

/-- The value of a 32-bit word as `int32_t`. -/
def toInt32 (u : Nat) : Int :=
  if u % 2 ^ 32 < 2 ^ 31 then (u % 2 ^ 32 : Nat) else ((u % 2 ^ 32 : Nat) : Int) - 2 ^ 32

/-- Modelled from the spec: `ntohl` of the C library on the little-endian host
("numeric fields cross the wire in a fixed byte order, big-endian"): the four bytes of
the word in reverse order. -/
def ntohl (x : Nat) : Nat :=
  (x % 256) * 2 ^ 24 + (x / 2 ^ 8 % 256) * 2 ^ 16 + (x / 2 ^ 16 % 256) * 2 ^ 8
    + (x / 2 ^ 24 % 256)

/-- Modelled from the spec: `htonl` of the C library on the little-endian host, the
same byte swap as `ntohl`. -/
def htonl (x : Nat) : Nat := ntohl x

/-- Modelled from the spec: `altcomcallbacks_unreg_cb` of the callback registry
(`altcom_callbacks.c`, not among the sources): remove the pending entry of `id`; a
no-op when there is none. -/
def altcomcallbacks_unreg_cb (id : Nat) (c : Run) : Run :=
  { world := { c.world with registry := c.world.registry.filter (fun e => e.1 != id) }
    trace := c.trace ++ [Event.altcomcallbacks_unreg_cb id] }

/-- The pending callback the registry holds for the command identifier `id`: `none`
when there is no entry, `some cb` for an entry with callback `cb`. -/
def pendingCallback (w : World) (id : Nat) : Option (Option Nat) :=
  (w.registry.find? (fun e => e.1 == id)).map Prod.snd

/-- Modelled from the spec: `altcomcallbacks_get_unreg_cb` of the callback registry
(not among the sources): "atomically look up and remove the Pending Callback Entry";
returns 0 and the callback when an entry exists, a non-zero code otherwise. -/
def altcomcallbacks_get_unreg_cb (id : Nat) (c : Run) : LookupResult :=
  match pendingCallback c.world id with
  | some cb =>
    { ret := 0
      callback := cb
      run :=
        { world :=
            { c.world with registry := c.world.registry.filter (fun e => e.1 != id) }
          trace := c.trace ++ [Event.altcomcallbacks_get_unreg_cb id 0 cb] } }
  | none =>
    { ret := -1
      callback := none
      run := c.emit (Event.altcomcallbacks_get_unreg_cb id (-1) none) }

/-- Modelled from the spec: `altcomstatus_unreg_statchgcb` of the status notifier
(not among the sources): `stop_observing`, remove the observer.  The source names the
observer by its function, and the model ends every registration of that function; with
the observer registered at most once this is the same as ending one registration. -/
def altcomstatus_unreg_statchgcb (stat : Observer) (c : Run) : Run :=
  { world := { c.world with observers := c.world.observers.filter (fun o => o != stat) }
    trace := c.trace ++ [Event.altcomstatus_unreg_statchgcb stat] }

/-- Modelled from the spec: `altcombs_setup_apicallback` (`altcombs.c`, not among the
sources): `register(command_id, callback, status_observer_fn)` "installs the callback
in the registry and attaches a status observer"; a negative answer registers
nothing.  Whether the call succeeds is the environment's answer; a success while the
identifier or the observer is still registered replaces the earlier registration,
which is one of the policies the spec leaves open, and on a state with neither
registered every policy gives this result. -/
def altcombs_setup_apicallback (env : Env) (id : Nat) (callback : Option Nat)
    (stat : Observer) (c : Run) : CodeResult :=
  if env.setup_apicallback < 0 then
    { ret := env.setup_apicallback
      run := c.emit (Event.altcombs_setup_apicallback id callback stat
        env.setup_apicallback) }
  else
    { ret := env.setup_apicallback
      run :=
        { world :=
            { c.world with
              registry := (id, callback) :: c.world.registry.filter (fun e => e.1 != id)
              observers := stat :: c.world.observers.filter (fun o => o != stat) }
          trace := c.trace ++ [Event.altcombs_setup_apicallback id callback stat
            env.setup_apicallback] } }

/-- Modelled from the spec: `altcombs_teardown_apicallback` (`altcombs.c`, not among
the sources): `unregister(command_id)` "removes both, idempotently". -/
def altcombs_teardown_apicallback (id : Nat) (stat : Observer) (c : Run) : Run :=
  { world :=
      { c.world with
        registry := c.world.registry.filter (fun e => e.1 != id)
        observers := c.world.observers.filter (fun o => o != stat) }
    trace := c.trace ++ [Event.altcombs_teardown_apicallback id stat] }

/-- Modelled from the spec: `apicmdgw_cmd_allocbuff` of the command gateway
(`allocate_request_buffer`): the buffer handed out becomes live. -/
def apicmdgw_cmd_allocbuff (env : Env) (cmdid : Nat) (len : Nat) (c : Run) :
    Option Nat × Run :=
  match env.cmd_allocbuff with
  | some p =>
    (some p,
      { world := { c.world with live := p :: c.world.live }
        trace := c.trace ++ [Event.apicmdgw_cmd_allocbuff cmdid len (some p)] })
  | none => (none, c.emit (Event.apicmdgw_cmd_allocbuff cmdid len none))

/-- Modelled from the spec: `altcom_free_cmd` of the command gateway
(`release_buffer`): the buffer is no longer live. -/
def altcom_free_cmd (buff : Nat) (c : Run) : Run :=
  { world := { c.world with live := c.world.live.erase buff }
    trace := c.trace ++ [Event.altcom_free_cmd buff] }

/-- Modelled from the spec: `altcom_mbedtls_alloc_cmdandresbuff` (`apiutil.h`, not
among the sources): allocates the command and the response buffer together; when it
returns false nothing stays allocated. -/
def altcom_mbedtls_alloc_cmdandresbuff (env : Env) (id : Nat) (bufflen : Nat)
    (reslen : Nat) (c : Run) : Option (Nat × Nat) × Run :=
  match env.alloc_cmdandresbuff with
  | some (cmd, res) =>
    (some (cmd, res),
      { world := { c.world with live := cmd :: res :: c.world.live }
        trace := c.trace ++
          [Event.altcom_mbedtls_alloc_cmdandresbuff id bufflen reslen (some (cmd, res))] })
  | none => (none, c.emit (Event.altcom_mbedtls_alloc_cmdandresbuff id bufflen reslen none))

/-- Modelled from the spec: `altcom_mbedtls_free_cmdandresbuff` (`apiutil.h`, not
among the sources): releases the command and the response buffer. -/
def altcom_mbedtls_free_cmdandresbuff (cmd : Nat) (res : Nat) (c : Run) : Run :=
  { world := { c.world with live := (c.world.live.erase cmd).erase res }
    trace := c.trace ++ [Event.altcom_mbedtls_free_cmdandresbuff cmd res] }

/-- The call `apicmdgw_send(cmd, res, resbufflen, &reslen, SYS_TIMEO_FEVR)`: the
gateway's answer is the environment's. -/
def apicmdgw_send (env : Env) (cmd : Nat) (payload : List Nat) (res : Option Nat)
    (resbufflen : Nat) (c : Run) : Run :=
  c.emit (Event.apicmdgw_send cmd payload res resbufflen env.send_ret env.send_reslen)

/-- The call `altcombs_set_psm(set, out)`: a NULL destination is rejected, otherwise
the environment's converter decides. -/
def altcombs_set_psm (env : Env) (set : apicmd_cmddat_psm_set_s)
    (out : Option lte_psm_setting_t) (c : Run) : PsmResult :=
  match out with
  | some s =>
    { ret := (env.set_psm set s).1
      settings := some (env.set_psm set s).2
      run := c.emit (Event.altcombs_set_psm set (env.set_psm set s).1) }
  | none =>
    { ret := -EINVAL, settings := none, run := c.emit (Event.altcombs_set_psm set (-EINVAL)) }

/-- The call `callback(result, &psm_set)` of a user callback. -/
def invoke_callback (env : Env) (fn : Nat) (result : Int) (psm : lte_psm_setting_t)
    (c : Run) : Run :=
  { world := env.callback fn result psm c.world
    trace := c.trace ++ [Event.callback fn result psm] }

/-- The call `altcom_seterrno(err)`. -/
def altcom_seterrno (err : Int) (c : Run) : Run :=
  { world := { c.world with errno := err }
    trace := c.trace ++ [Event.altcom_seterrno err] }

/-! ## `lte_getdynamicpsm.c` -/

/-- The function `getdynamicpsm_status_chg_cb` of `lte_getdynamicpsm.c`. -/
def getdynamicpsm_status_chg_cb (env : Env) (new_stat : Int) (_old_stat : Int) (c : Run) :
    CodeResult :=
  if new_stat < env.ALTCOM_STATUS_POWER_ON then
    { ret := ALTCOM_STATUS_REG_CLR
      run := altcomcallbacks_unreg_cb env.APICMDID_GET_DYNAMICPSM c }
  else
    { ret := ALTCOM_STATUS_REG_KEEP, run := c }

/-- The function `get_dynamicpsm_job` of `lte_getdynamicpsm.c`; `arg` is the response
buffer and `data` its content. -/
def get_dynamicpsm_job (env : Env) (arg : Nat) (data : apicmd_cmddat_getdynamicpsmres_s)
    (c : Run) : Run :=
  let r := altcomcallbacks_get_unreg_cb env.APICMDID_GET_DYNAMICPSM c
  let c1 :=
    if r.ret ≠ 0 then r.run
    else
      match r.callback with
      | none => r.run
      | some fn =>
        let psm_set := lte_psm_setting_t.zero
        let c2 := r.run.emit Event.load_result
        if LTE_RESULT_OK = data.result then
          let s := altcombs_set_psm env data.set (some psm_set) c2
          let psm_set := s.settings.getD psm_set
          let ret := env.check_psm psm_set
          let c3 := s.run.emit (Event.altcombs_check_psm psm_set ret)
          if ret < 0 then invoke_callback env fn LTE_RESULT_ERROR psm_set c3
          else invoke_callback env fn LTE_RESULT_OK psm_set c3
        else invoke_callback env fn LTE_RESULT_ERROR psm_set c2
  let c4 := altcom_free_cmd arg c1
  altcomstatus_unreg_statchgcb Observer.getdynamicpsm_status_chg_cb c4

/-- The function `lte_getcurrentpsm_impl` of `lte_getdynamicpsm.c`.  `settings` is the
caller's output slot (`none` is NULL, `some s` a slot holding `s`), `callback` the
completion callback (`none` is NULL).  The response storage handed to `apicmdgw_send`
is `some 0`, the stack variable `resbuff`, on the synchronous path and `none` (NULL)
on the asynchronous one; `env.psm_res` is the content of `resbuff` after the send. -/
def lte_getcurrentpsm_impl (env : Env) (settings : Option lte_psm_setting_t)
    (callback : Option Nat) (c : Run) : PsmResult :=
  let sync := callback.isNone
  if settings.isNone ∧ callback.isNone then
    { ret := -EINVAL, settings := settings, run := c }
  else
    let c := c.emit (Event.altcombs_check_poweron_status env.poweron_status)
    if env.poweron_status < 0 then
      { ret := env.poweron_status, settings := settings, run := c }
    else
      let cmdid := env.get_cmdid env.APICMDID_GET_DYNAMICPSM
      let c := c.emit (Event.apicmdgw_get_cmdid env.APICMDID_GET_DYNAMICPSM cmdid)
      if cmdid = env.APICMDID_UNKNOWN then
        { ret := -ENETDOWN, settings := settings, run := c }
      else
        let c := c.emit (Event.apicmdgw_get_protocolversion env.protocolversion)
        if env.protocolversion = env.APICMD_VER_V4 then
          let d := env.getpsm_impl env.ALTCOM_GETPSM_TYPE_NEGOTIATED settings callback
            c.world
          { ret := d.1
            settings := d.2.1
            run :=
              { world := d.2.2
                trace := c.trace ++ [Event.lte_getpsm_impl
                  env.ALTCOM_GETPSM_TYPE_NEGOTIATED settings.isSome callback] } }
        else
          let reg :=
            if sync then ({ ret := 0, run := c } : CodeResult)
            else altcombs_setup_apicallback env env.APICMDID_GET_DYNAMICPSM callback
              Observer.getdynamicpsm_status_chg_cb c
          if ¬ sync ∧ reg.ret < 0 then
            { ret := reg.ret, settings := settings, run := reg.run }
          else
            let errout := fun (ret : Int) (c : Run) =>
              if ¬ sync then
                ({ ret := ret
                   settings := settings
                   run := altcombs_teardown_apicallback env.APICMDID_GET_DYNAMICPSM
                     Observer.getdynamicpsm_status_chg_cb c } : PsmResult)
              else { ret := ret, settings := settings, run := c }
            match apicmdgw_cmd_allocbuff env cmdid 0 reg.run with
            | (none, c) => errout (-ENOMEM) c
            | (some reqbuff, c) =>
              let c := apicmdgw_send env reqbuff [] (if sync then some 0 else none)
                env.RES_DATA_LEN c
              let c := altcom_free_cmd reqbuff c
              if env.send_ret < 0 then errout env.send_ret c
              else if sync then
                let c := c.emit Event.load_result
                if LTE_RESULT_OK = env.psm_res.result then
                  let s := altcombs_set_psm env env.psm_res.set settings c
                  if s.ret < 0 then { ret := -EFAULT, settings := s.settings, run := s.run }
                  else { ret := s.ret, settings := s.settings, run := s.run }
                else { ret := -EPROTO, settings := settings, run := c }
              else { ret := 0, settings := settings, run := c }

/-- The function `lte_get_dynamic_psm_param` of `lte_getdynamicpsm.c`. -/
def lte_get_dynamic_psm_param (env : Env) (callback : Option Nat) (c : Run) : PsmResult :=
  if callback.isNone then { ret := -EINVAL, settings := none, run := c }
  else lte_getcurrentpsm_impl env none callback c

/-- The function `lte_get_current_psm_sync` of `lte_getdynamicpsm.c`. -/
def lte_get_current_psm_sync (env : Env) (settings : Option lte_psm_setting_t) (c : Run) :
    PsmResult :=
  lte_getcurrentpsm_impl env settings none c

/-- The function `lte_get_current_psm` of `lte_getdynamicpsm.c`. -/
def lte_get_current_psm (env : Env) (callback : Option Nat) (c : Run) : PsmResult :=
  if callback.isNone then { ret := -EINVAL, settings := none, run := c }
  else lte_getcurrentpsm_impl env none callback c

/-! ## `md_digest.c` -/

/-- The function `md_digest_request` of `md_digest.c`; `output` is the content of the
caller's output buffer. -/
def md_digest_request (env : Env) (req : md_digest_req_s) (output : List Nat) (c : Run) :
    DigestResult :=
  match altcom_mbedtls_alloc_cmdandresbuff env env.APICMDID_TLS_MD_DIGEST
      env.MD_DIGEST_REQ_DATALEN env.MD_DIGEST_RES_DATALEN c with
  | (none, c) => { ret := MBEDTLS_ERR_MD_ALLOC_FAILED, output := output, run := c }
  | (some (cmd, res), c) =>
    let c := apicmdgw_send env cmd [htonl req.md_id, htonl req.chain_id] (some res)
      env.MD_DIGEST_RES_DATALEN c
    if env.send_ret < 0 then
      { ret := env.send_ret
        output := output
        run := altcom_mbedtls_free_cmdandresbuff cmd res c }
    else if env.send_reslen ≠ env.MD_DIGEST_RES_DATALEN then
      { ret := MBEDTLS_ERR_MD_FILE_IO_ERROR
        output := output
        run := altcom_mbedtls_free_cmdandresbuff cmd res c }
    else
      let c := c.emit Event.load_result
      let ret := toInt32 (ntohl env.md_res.ret_code)
      let c := c.emit Event.store_output
      let output := env.md_res.output.take env.APICMD_MD_DIGEST_OUTPUT_LEN ++
        output.drop env.APICMD_MD_DIGEST_OUTPUT_LEN
      { ret := ret, output := output, run := altcom_mbedtls_free_cmdandresbuff cmd res c }

/-- The function `mbedtls_md_digest` of `md_digest.c`; `md_info_id` is `md_info->id`
and `chain_id` is `chain->id`. -/
def mbedtls_md_digest (env : Env) (md_info_id : Nat) (chain_id : Nat) (output : List Nat)
    (c : Run) : DigestResult :=
  let c := c.emit (Event.altcom_isinit env.isinit)
  if ¬ env.isinit then
    { ret := 0, output := output, run := altcom_seterrno ALTCOM_ENETDOWN c }
  else
    md_digest_request env { md_id := md_info_id, chain_id := chain_id } output c

/-! ## `x509write_crt_serial.c` -/

/-- The function `x509write_crt_serial_request` of `x509write_crt_serial.c`. -/
def x509write_crt_serial_request (env : Env) (req : x509write_crt_serial_req_s) (c : Run) :
    CodeResult :=
  let c := c.emit (Event.apicmdgw_get_protocolversion env.protocolversion)
  if env.protocolversion ≠ env.APICMD_VER_V1 then
    { ret := MBEDTLS_ERR_X509_BAD_INPUT_DATA, run := c }
  else
    match altcom_mbedtls_alloc_cmdandresbuff env env.APICMDID_TLS_X509WRITE_CRT_SERIAL
        env.X509WRITE_CRT_SERIAL_REQ_DATALEN env.X509WRITE_CRT_SERIAL_RES_DATALEN c with
    | (none, c) => { ret := MBEDTLS_ERR_X509_BAD_INPUT_DATA, run := c }
    | (some (cmd, res), c) =>
      let c := apicmdgw_send env cmd [htonl req.id, htonl req.serial] (some res)
        env.X509WRITE_CRT_SERIAL_RES_DATALEN c
      if env.send_ret < 0 then
        { ret := MBEDTLS_ERR_X509_BAD_INPUT_DATA
          run := altcom_mbedtls_free_cmdandresbuff cmd res c }
      else if env.send_reslen ≠ env.X509WRITE_CRT_SERIAL_RES_DATALEN then
        { ret := MBEDTLS_ERR_X509_BAD_INPUT_DATA
          run := altcom_mbedtls_free_cmdandresbuff cmd res c }
      else
        let c := c.emit Event.load_result
        let ret := toInt32 (ntohl env.x509_res.ret_code)
        { ret := ret, run := altcom_mbedtls_free_cmdandresbuff cmd res c }

/-- The function `mbedtls_x509write_crt_set_serial` of `x509write_crt_serial.c`;
`ctx_id` is `ctx->id` and `serial_id` is `serial->id`. -/
def mbedtls_x509write_crt_set_serial (env : Env) (ctx_id : Nat) (serial_id : Nat)
    (c : Run) : CodeResult :=
  let c := c.emit (Event.altcom_isinit env.isinit)
  if ¬ env.isinit then
    { ret := MBEDTLS_ERR_X509_BAD_INPUT_DATA, run := altcom_seterrno ALTCOM_ENETDOWN c }
  else
    x509write_crt_serial_request env { id := ctx_id, serial := serial_id } c

/-! ## Reading a trace -/

/-- The buffers a list of steps releases, in order. -/
def freed : List Event → List Nat
  | [] => []
  | Event.altcom_free_cmd p :: t => p :: freed t
  | Event.altcom_mbedtls_free_cmdandresbuff cmd res :: t => cmd :: res :: freed t
  | _ :: t => freed t

/-- The buffers a list of steps allocates successfully, in order. -/
def allocated : List Event → List Nat
  | [] => []
  | Event.apicmdgw_cmd_allocbuff _ _ (some p) :: t => p :: allocated t
  | Event.altcom_mbedtls_alloc_cmdandresbuff _ _ _ (some (cmd, res)) :: t =>
    cmd :: res :: allocated t
  | _ :: t => allocated t

/-- The callback invocations of a list of steps: callback, result and settings passed. -/
def callbacksOf : List Event → List (Nat × Int × lte_psm_setting_t)
  | [] => []
  | Event.callback fn result psm :: t => (fn, result, psm) :: callbacksOf t
  | _ :: t => callbacksOf t

/-- The code returned by the first `apicmdgw_send` of a list of steps, when there is
one. -/
def sendRet : List Event → Option Int
  | [] => none
  | Event.apicmdgw_send _ _ _ _ ret _ :: _ => some ret
  | _ :: t => sendRet t

/-- The teardown calls of a list of steps. -/
def teardownsOf : List Event → List (Nat × Observer)
  | [] => []
  | Event.altcombs_teardown_apicallback id stat :: t => (id, stat) :: teardownsOf t
  | _ :: t => teardownsOf t

/-- Whether the registry holds a pending entry for the command identifier `id`. -/
def pending (w : World) (id : Nat) : Bool :=
  (pendingCallback w id).isSome

/-- The world once the registry entry of `id` has been removed. -/
def World.without (w : World) (id : Nat) : World :=
  { w with registry := w.registry.filter (fun e => e.1 != id) }

/-- The world after the last two steps of the response job: the response buffer `arg`
released and the status observer `getdynamicpsm_status_chg_cb` unregistered. -/
def World.afterJob (w : World) (arg : Nat) : World :=
  { w with
    observers := w.observers.filter (fun o => o != Observer.getdynamicpsm_status_chg_cb)
    live := w.live.erase arg }

/-- Whether a step is one of the decoding steps of the response job: the load of the
result code, the settings conversion, the settings check. -/
def Event.isDecode : Event → Bool
  | Event.load_result => true
  | Event.altcombs_set_psm _ _ => true
  | Event.altcombs_check_psm _ _ => true
  | _ => false

/-! ## Sample environments and states -/

/-- An environment in which everything succeeds: the device is powered on and
initialised, the command identifier resolves, the protocol version is V1, buffers are
handed out, the send succeeds with a response of the fixed length 6 whose result code
is `LTE_RESULT_OK`. -/
def env0 : Env :=
  { ALTCOM_STATUS_POWER_ON := 3
    APICMDID_GET_DYNAMICPSM := 27
    APICMDID_UNKNOWN := 0
    APICMDID_TLS_MD_DIGEST := 300
    APICMDID_TLS_X509WRITE_CRT_SERIAL := 301
    APICMD_VER_V1 := 1
    APICMD_VER_V4 := 4
    ALTCOM_GETPSM_TYPE_NEGOTIATED := 1
    RES_DATA_LEN := 6
    MD_DIGEST_REQ_DATALEN := 8
    MD_DIGEST_RES_DATALEN := 6
    APICMD_MD_DIGEST_OUTPUT_LEN := 2
    X509WRITE_CRT_SERIAL_REQ_DATALEN := 8
    X509WRITE_CRT_SERIAL_RES_DATALEN := 6
    poweron_status := 0
    isinit := true
    get_cmdid := fun id => id
    protocolversion := 1
    getpsm_impl := fun _ s _ w => (0, s, w)
    setup_apicallback := 0
    cmd_allocbuff := some 7
    alloc_cmdandresbuff := some (7, 8)
    send_ret := 0
    send_reslen := 6
    psm_res := { result := 0, set := { bytes := [1, 2, 3, 4, 5] } }
    md_res := { ret_code := 0, output := [170, 187] }
    x509_res := { ret_code := 0 }
    set_psm := fun set _ =>
      (0, { enable := set.bytes.getD 0 0 != 0
            req_active_time := { unit := set.bytes.getD 1 0, time_val := set.bytes.getD 2 0 }
            ext_periodic_tau_time :=
              { unit := set.bytes.getD 3 0, time_val := set.bytes.getD 4 0 } })
    check_psm := fun _ => 0
    callback := fun _ _ _ w => w }

/-- The environment `env0` with a response that is too short: the send succeeds but
reports 1 received byte instead of `RES_DATA_LEN = 6`, and the response storage holds
a result code `LTE_RESULT_OK` followed by the bytes 9. -/
def env_short_response : Env :=
  { env0 with
    send_reslen := 1
    psm_res := { result := 0, set := { bytes := [9, 9, 9, 9, 9] } } }

/-- The environment `env0` with a gateway that has no buffer left. -/
def env_nomem : Env :=
  { env0 with cmd_allocbuff := none }

/-- The environment `env0` with a transport that fails with code `-5`. -/
def env_send_fails : Env :=
  { env0 with send_ret := -5 }

/-- A state in which the callback 5 is pending for the command identifier 27 and the
status observer is registered, with the response buffer 99 live. -/
def run_pending : Run :=
  { world :=
      { registry := [(27, some 5)]
        observers := [Observer.getdynamicpsm_status_chg_cb]
        live := [99]
        errno := 0 }
    trace := [] }

/-- The environment `env0` with the library neither powered on nor initialised. -/
def env_not_init : Env :=
  { env0 with poweron_status := -1, isinit := false }

/-- The environment `env0` with a remote side that answers the digest request with
the code `-1` (the word `0xFFFFFFFF`). -/
def env_md_remote_a : Env :=
  { env0 with md_res := { ret_code := 0xFFFFFFFF, output := [170, 187] } }

/-- The environment `env0` with a remote side that answers the digest request with
the code `-0x5100` (on the wire the bytes `FF FF AF 00`, which the little-endian host
loads as the word `0x00AFFFFF`). -/
def env_md_remote_b : Env :=
  { env0 with md_res := { ret_code := 0x00AFFFFF, output := [170, 187] } }

/-- The initial state: nothing registered, nothing allocated, nothing done yet. -/
def run0 : Run :=
  { world := { registry := [], observers := [], live := [], errno := 0 }, trace := [] }

/-- The environment `env0` with the protocol version V4 negotiated and an
`lte_getpsm_impl` that returns its type argument plus 40, leaves the output slot as it
is and sets errno to 4. -/
def env_v4 : Env :=
  { env0 with
    protocolversion := 4
    getpsm_impl := fun type s _ w => (type + 40, s, { w with errno := 4 }) }

/-- The environment `env0` with a gateway that resolves every command identifier to
`APICMDID_UNKNOWN`. -/
def env_unknown_cmdid : Env :=
  { env0 with get_cmdid := fun _ => 0 }

/-- C1: with neither output slot nor callback, `lte_getcurrentpsm_impl` (hence
`lte_get_current_psm_sync(NULL)`), `lte_get_dynamic_psm_param(NULL)` and
`lte_get_current_psm(NULL)` return `-EINVAL` and leave the run as it was: no step at
all is performed (no power-state check, no command-id resolution, no registration, no
allocation, no send) and the world is unchanged. -/
theorem C1_null_arguments_rejected_without_io (env : Env) (c : Run) :
    lte_getcurrentpsm_impl env none none c = { ret := -EINVAL, settings := none, run := c } ∧
    lte_get_current_psm_sync env none c = { ret := -EINVAL, settings := none, run := c } ∧
    lte_get_dynamic_psm_param env none c = { ret := -EINVAL, settings := none, run := c } ∧
    lte_get_current_psm env none c = { ret := -EINVAL, settings := none, run := c } := by
  refine ⟨?_, ?_, ?_, ?_⟩
  · simp [lte_getcurrentpsm_impl]
  · simp [lte_get_current_psm_sync, lte_getcurrentpsm_impl]
  · simp [lte_get_dynamic_psm_param]
  · simp [lte_get_current_psm]

/-! ### Length validation -/

/-- In `md_digest_request`, a successful send that reports a length other than
`MD_DIGEST_RES_DATALEN` yields `MBEDTLS_ERR_MD_FILE_IO_ERROR`; the response is not
loaded and the caller's output is not stored. -/
theorem md_digest_request_length_mismatch (env : Env) (req : md_digest_req_s)
    (output : List Nat) (c : Run) (cmd res : Nat)
    (ha : env.alloc_cmdandresbuff = some (cmd, res)) (hs : 0 ≤ env.send_ret)
    (hl : env.send_reslen ≠ env.MD_DIGEST_RES_DATALEN) :
    (md_digest_request env req output c).ret = MBEDTLS_ERR_MD_FILE_IO_ERROR ∧
    (md_digest_request env req output c).output = output ∧
    (md_digest_request env req output c).run.trace = c.trace ++
      [Event.altcom_mbedtls_alloc_cmdandresbuff env.APICMDID_TLS_MD_DIGEST
         env.MD_DIGEST_REQ_DATALEN env.MD_DIGEST_RES_DATALEN (some (cmd, res)),
       Event.apicmdgw_send cmd [htonl req.md_id, htonl req.chain_id] (some res)
         env.MD_DIGEST_RES_DATALEN env.send_ret env.send_reslen,
       Event.altcom_mbedtls_free_cmdandresbuff cmd res] := by
  have hs' : ¬ env.send_ret < 0 := not_lt.mpr hs
  simp [md_digest_request, altcom_mbedtls_alloc_cmdandresbuff, apicmdgw_send,
    altcom_mbedtls_free_cmdandresbuff, Run.emit, ha, hs', hl]

/-- In `x509write_crt_serial_request`, a successful send that reports a length other
than `X509WRITE_CRT_SERIAL_RES_DATALEN` yields `MBEDTLS_ERR_X509_BAD_INPUT_DATA`; the
response is not loaded. -/
theorem x509write_crt_serial_request_length_mismatch (env : Env)
    (req : x509write_crt_serial_req_s) (c : Run) (cmd res : Nat)
    (hv : env.protocolversion = env.APICMD_VER_V1)
    (ha : env.alloc_cmdandresbuff = some (cmd, res)) (hs : 0 ≤ env.send_ret)
    (hl : env.send_reslen ≠ env.X509WRITE_CRT_SERIAL_RES_DATALEN) :
    (x509write_crt_serial_request env req c).ret = MBEDTLS_ERR_X509_BAD_INPUT_DATA ∧
    (x509write_crt_serial_request env req c).run.trace = c.trace ++
      [Event.apicmdgw_get_protocolversion env.protocolversion,
       Event.altcom_mbedtls_alloc_cmdandresbuff env.APICMDID_TLS_X509WRITE_CRT_SERIAL
         env.X509WRITE_CRT_SERIAL_REQ_DATALEN env.X509WRITE_CRT_SERIAL_RES_DATALEN
         (some (cmd, res)),
       Event.apicmdgw_send cmd [htonl req.id, htonl req.serial] (some res)
         env.X509WRITE_CRT_SERIAL_RES_DATALEN env.send_ret env.send_reslen,
       Event.altcom_mbedtls_free_cmdandresbuff cmd res] := by
  have hs' : ¬ env.send_ret < 0 := not_lt.mpr hs
  simp [x509write_crt_serial_request, altcom_mbedtls_alloc_cmdandresbuff, apicmdgw_send,
    altcom_mbedtls_free_cmdandresbuff, Run.emit, ha, hs', hl, hv]

/-- The received length plays no part in `lte_getcurrentpsm_impl`: whatever length the
send reports, the return value and the content of the output slot are the same. -/
theorem lte_getcurrentpsm_impl_ignores_reslen (env : Env) (n : Nat)
    (settings : Option lte_psm_setting_t) (callback : Option Nat) (c : Run) :
    (lte_getcurrentpsm_impl { env with send_reslen := n } settings callback c).ret =
      (lte_getcurrentpsm_impl env settings callback c).ret ∧
    (lte_getcurrentpsm_impl { env with send_reslen := n } settings callback c).settings =
      (lte_getcurrentpsm_impl env settings callback c).settings := by
  unfold lte_getcurrentpsm_impl
  simp only [apicmdgw_cmd_allocbuff, altcombs_setup_apicallback, apicmdgw_send, altcom_free_cmd,
    altcombs_teardown_apicallback, altcombs_set_psm, Run.emit]
  rcases hca : env.cmd_allocbuff with _ | p <;> rcases settings with _ | s <;>
    rcases callback with _ | fn <;> simp <;> (try split_ifs) <;> simp

/-- C2 (the code at the failing input): `lte_get_current_psm_sync` with a send that
succeeds but reports 1 received byte where `RES_DATA_LEN` is 6.  The call does not
fail: it returns 0, loads the result code of the response storage, and stores the
conversion of the storage's settings bytes into the caller's slot. -/
theorem C2_lte_sync_decodes_response_of_wrong_length :
    env_short_response.send_reslen ≠ env_short_response.RES_DATA_LEN ∧
    0 ≤ env_short_response.send_ret ∧
    (lte_get_current_psm_sync env_short_response (some lte_psm_setting_t.zero) run0).ret = 0 ∧
    (lte_get_current_psm_sync env_short_response (some lte_psm_setting_t.zero) run0).settings =
      some { enable := true
             req_active_time := { unit := 9, time_val := 9 }
             ext_periodic_tau_time := { unit := 9, time_val := 9 } } ∧
    Event.load_result ∈
      (lte_get_current_psm_sync env_short_response (some lte_psm_setting_t.zero) run0).run.trace := by
  decide

/-! ### Buffer release -/

/-- C3: in `lte_getcurrentpsm_impl` (old framing, protocol version other than V4),
`md_digest_request` and `x509write_crt_serial_request`, whatever the allocation and
the send answer: the buffers released by the call are exactly the buffers it
allocated successfully, each once (none when the allocation failed), and the live
gateway buffers after the call are those before it. -/
theorem C3_allocated_buffers_released_exactly_once (env : Env)
    (settings : Option lte_psm_setting_t) (callback : Option Nat) (req : md_digest_req_s)
    (output : List Nat) (xreq : x509write_crt_serial_req_s) (c : Run)
    (hv : env.protocolversion ≠ env.APICMD_VER_V4) :
    ((∃ evs, (lte_getcurrentpsm_impl env settings callback c).run.trace = c.trace ++ evs ∧
        freed evs = allocated evs ∧
        (allocated evs = [] ∨ ∃ p, env.cmd_allocbuff = some p ∧ allocated evs = [p])) ∧
      (lte_getcurrentpsm_impl env settings callback c).run.world.live = c.world.live) ∧
    ((∃ evs, (md_digest_request env req output c).run.trace = c.trace ++ evs ∧
        freed evs = allocated evs ∧
        (match env.alloc_cmdandresbuff with
          | none => allocated evs = []
          | some (cmd, res) => allocated evs = [cmd, res])) ∧
      (md_digest_request env req output c).run.world.live = c.world.live) ∧
    ((∃ evs, (x509write_crt_serial_request env xreq c).run.trace = c.trace ++ evs ∧
        freed evs = allocated evs ∧
        (allocated evs = [] ∨
          ∃ cmd res, env.alloc_cmdandresbuff = some (cmd, res) ∧ allocated evs = [cmd, res])) ∧
      (x509write_crt_serial_request env xreq c).run.world.live = c.world.live) := by
  refine ⟨⟨?_, ?_⟩, ⟨?_, ?_⟩, ⟨?_, ?_⟩⟩
  · unfold lte_getcurrentpsm_impl
    simp only [apicmdgw_cmd_allocbuff, altcombs_setup_apicallback, apicmdgw_send,
      altcom_free_cmd, altcombs_teardown_apicallback, altcombs_set_psm, Run.emit]
    rcases hca : env.cmd_allocbuff with _ | p <;> rcases settings with _ | s <;>
      rcases callback with _ | fn <;> simp <;> (try split_ifs) <;>
      simp [List.append_assoc, freed, allocated]
  · unfold lte_getcurrentpsm_impl
    simp only [apicmdgw_cmd_allocbuff, altcombs_setup_apicallback, apicmdgw_send,
      altcom_free_cmd, altcombs_teardown_apicallback, altcombs_set_psm, Run.emit]
    rcases hca : env.cmd_allocbuff with _ | p <;> rcases settings with _ | s <;>
      rcases callback with _ | fn <;> simp [hv] <;> split_ifs <;> simp
  · unfold md_digest_request
    simp only [altcom_mbedtls_alloc_cmdandresbuff, apicmdgw_send,
      altcom_mbedtls_free_cmdandresbuff, Run.emit]
    rcases hca : env.alloc_cmdandresbuff with _ | ⟨cmd, res⟩ <;> simp <;>
      (try split_ifs) <;> simp [List.append_assoc, freed, allocated]
  · unfold md_digest_request
    simp only [altcom_mbedtls_alloc_cmdandresbuff, apicmdgw_send,
      altcom_mbedtls_free_cmdandresbuff, Run.emit]
    rcases hca : env.alloc_cmdandresbuff with _ | ⟨cmd, res⟩
    · simp
    · simp only []
      split_ifs <;> simp
  · unfold x509write_crt_serial_request
    simp only [altcom_mbedtls_alloc_cmdandresbuff, apicmdgw_send,
      altcom_mbedtls_free_cmdandresbuff, Run.emit]
    rcases hca : env.alloc_cmdandresbuff with _ | ⟨cmd, res⟩ <;> simp <;>
      (try split_ifs) <;> simp [List.append_assoc, freed, allocated]
  · unfold x509write_crt_serial_request
    simp only [altcom_mbedtls_alloc_cmdandresbuff, apicmdgw_send,
      altcom_mbedtls_free_cmdandresbuff, Run.emit]
    rcases hca : env.alloc_cmdandresbuff with _ | ⟨cmd, res⟩ <;> simp <;>
      (try split_ifs) <;> simp

/-! ### Registration and teardown -/

/-- Removing the entries of `id` leaves no pending callback for `id`. -/
theorem pendingCallback_without (w : World) (id : Nat) :
    pendingCallback (w.without id) id = none := by
  simp [pendingCallback, World.without, List.find?_eq_none]

/-- When no entry of `id` is pending, removing the entries of `id` changes nothing. -/
theorem without_of_not_pending (w : World) (id : Nat) (h : pendingCallback w id = none) :
    w.without id = w := by
  have h1 : ∀ e ∈ w.registry, ¬ e.1 = id := by
    simpa [pendingCallback, List.find?_eq_none] using h
  have h2 : w.registry.filter (fun e => e.1 != id) = w.registry := by
    rw [List.filter_eq_self]
    intro e he
    simpa using h1 e he
  cases w
  simp only [World.without] at h2 ⊢
  simp [h2]

/-- C4: an asynchronous call of `lte_getcurrentpsm_impl` that got as far as a successful
`altcombs_setup_apicallback` and then fails to allocate the request buffer or to send
returns `-ENOMEM`, respectively exactly the code of `apicmdgw_send`; its last step is
the one call `altcombs_teardown_apicallback(APICMDID_GET_DYNAMICPSM,
getdynamicpsm_status_chg_cb)`, no teardown precedes it, and afterwards the registry
holds no entry for that identifier.  A synchronous call never calls the teardown. -/
theorem C4_async_failure_tears_down_registration (env : Env)
    (settings : Option lte_psm_setting_t) (fn : Nat) (c : Run)
    (hp : 0 ≤ env.poweron_status)
    (hc : env.get_cmdid env.APICMDID_GET_DYNAMICPSM ≠ env.APICMDID_UNKNOWN)
    (hv : env.protocolversion ≠ env.APICMD_VER_V4)
    (hs : 0 ≤ env.setup_apicallback)
    (hf : env.cmd_allocbuff = none ∨ env.send_ret < 0) :
    (lte_getcurrentpsm_impl env settings (some fn) c).ret =
      (match env.cmd_allocbuff with
        | none => -ENOMEM
        | some _ => env.send_ret) ∧
    (∃ evs, (lte_getcurrentpsm_impl env settings (some fn) c).run.trace = c.trace ++ evs ∧
      teardownsOf evs =
        [(env.APICMDID_GET_DYNAMICPSM, Observer.getdynamicpsm_status_chg_cb)] ∧
      evs.getLast? = some (Event.altcombs_teardown_apicallback env.APICMDID_GET_DYNAMICPSM
        Observer.getdynamicpsm_status_chg_cb)) ∧
    pending (lte_getcurrentpsm_impl env settings (some fn) c).run.world
      env.APICMDID_GET_DYNAMICPSM = false ∧
    (∀ (env1 : Env) (s : Option lte_psm_setting_t) (c1 : Run),
      ∃ evs, (lte_getcurrentpsm_impl env1 s none c1).run.trace = c1.trace ++ evs ∧
        teardownsOf evs = []) := by
  have hp' : ¬ env.poweron_status < 0 := not_lt.mpr hp
  have hs' : ¬ env.setup_apicallback < 0 := not_lt.mpr hs
  refine ⟨?_, ?_, ?_, ?_⟩
  · unfold lte_getcurrentpsm_impl
    simp only [apicmdgw_cmd_allocbuff, altcombs_setup_apicallback, apicmdgw_send,
      altcom_free_cmd, altcombs_teardown_apicallback, altcombs_set_psm, Run.emit]
    rcases hf with hf | hf
    · simp [hp', hc, hv, hs', hf]
    · rcases hca : env.cmd_allocbuff with _ | p <;> simp [hp', hc, hv, hs', hf]
  · unfold lte_getcurrentpsm_impl
    simp only [apicmdgw_cmd_allocbuff, altcombs_setup_apicallback, apicmdgw_send,
      altcom_free_cmd, altcombs_teardown_apicallback, altcombs_set_psm, Run.emit]
    rcases hf with hf | hf
    · simp [hp', hc, hv, hs', hf, teardownsOf]
    · rcases hca : env.cmd_allocbuff with _ | p <;>
        simp [hp', hc, hv, hs', hf, teardownsOf]
  · unfold lte_getcurrentpsm_impl
    simp only [apicmdgw_cmd_allocbuff, altcombs_setup_apicallback, apicmdgw_send,
      altcom_free_cmd, altcombs_teardown_apicallback, altcombs_set_psm, Run.emit]
    rcases hf with hf | hf
    · simp [hp', hc, hv, hs', hf, pending, pendingCallback, List.find?_eq_none]
    · rcases hca : env.cmd_allocbuff with _ | p <;>
        simp [hp', hc, hv, hs', hf, pending, pendingCallback, List.find?_eq_none]
  · intro env1 s c1
    unfold lte_getcurrentpsm_impl
    simp only [apicmdgw_cmd_allocbuff, altcombs_setup_apicallback, apicmdgw_send,
      altcom_free_cmd, altcombs_teardown_apicallback, altcombs_set_psm, Run.emit]
    rcases hca : env1.cmd_allocbuff with _ | p <;> rcases s with _ | s <;>
      simp <;> (try split_ifs) <;> simp [List.append_assoc, teardownsOf]

/-- Witness of C3: the successful synchronous exchange of `env0`. -/
theorem C3_allocated_buffers_released_exactly_once_witness :
    env0.protocolversion ≠ env0.APICMD_VER_V4 ∧
    (lte_getcurrentpsm_impl env0 (some lte_psm_setting_t.zero) none run0).run.world.live =
      run0.world.live ∧
    (md_digest_request env0 { md_id := 1, chain_id := 2 } [0, 0, 0] run0).run.world.live =
      run0.world.live ∧
    (x509write_crt_serial_request env0 { id := 1, serial := 2 } run0).run.world.live =
      run0.world.live :=
  ⟨by decide,
    (C3_allocated_buffers_released_exactly_once env0 (some lte_psm_setting_t.zero) none
      { md_id := 1, chain_id := 2 } [0, 0, 0] { id := 1, serial := 2 } run0 (by decide)).1.2,
    (C3_allocated_buffers_released_exactly_once env0 (some lte_psm_setting_t.zero) none
      { md_id := 1, chain_id := 2 } [0, 0, 0] { id := 1, serial := 2 } run0 (by decide)).2.1.2,
    (C3_allocated_buffers_released_exactly_once env0 (some lte_psm_setting_t.zero) none
      { md_id := 1, chain_id := 2 } [0, 0, 0] { id := 1, serial := 2 } run0 (by decide)).2.2.2⟩

/-- Witness of C4: the asynchronous call with callback 5 when the gateway has no buffer
left, and when the transport fails with `-5`. -/
theorem C4_async_failure_tears_down_registration_witness :
    (lte_getcurrentpsm_impl env_nomem none (some 5) run0).ret = -ENOMEM ∧
    (lte_getcurrentpsm_impl env_send_fails none (some 5) run0).ret = -5 ∧
    pending (lte_getcurrentpsm_impl env_send_fails none (some 5) run0).run.world 27 = false :=
  ⟨(C4_async_failure_tears_down_registration env_nomem none 5 run0 (by decide) (by decide)
      (by decide) (by decide) (Or.inl rfl)).1,
    (C4_async_failure_tears_down_registration env_send_fails none 5 run0 (by decide)
      (by decide) (by decide) (by decide) (Or.inr (by decide))).1,
    (C4_async_failure_tears_down_registration env_send_fails none 5 run0 (by decide)
      (by decide) (by decide) (by decide) (Or.inr (by decide))).2.2.1⟩

/-! ### The response job -/

/-- When the registry holds no entry, or an entry with a NULL callback, for
`APICMDID_GET_DYNAMICPSM`, `get_dynamicpsm_job` invokes no callback. -/
theorem get_dynamicpsm_job_no_callback (env : Env) (arg : Nat)
    (data : apicmd_cmddat_getdynamicpsmres_s) (c : Run)
    (h : pendingCallback c.world env.APICMDID_GET_DYNAMICPSM = none ∨
      pendingCallback c.world env.APICMDID_GET_DYNAMICPSM = some none) :
    ∃ evs, (get_dynamicpsm_job env arg data c).trace = c.trace ++ evs ∧
      callbacksOf evs = [] := by
  rcases h with h | h <;>
    simp [get_dynamicpsm_job, altcomcallbacks_get_unreg_cb, altcom_free_cmd,
      altcomstatus_unreg_statchgcb, Run.emit, h, callbacksOf]

/-- C5: when the registry holds the pending callback `fn` for `APICMDID_GET_DYNAMICPSM`,
`get_dynamicpsm_job` invokes `fn` exactly once and no other callback; the result
passed is `LTE_RESULT_OK` exactly when the wire result is `LTE_RESULT_OK` and
`altcombs_check_psm` of the converted settings is not negative, and `LTE_RESULT_ERROR`
otherwise; the settings passed are the converted settings when the wire result is
`LTE_RESULT_OK` and all-zero when it is not.  When the lookup fails or yields a NULL
callback, no callback is invoked. -/
theorem C5_job_invokes_pending_callback_exactly_once (env : Env) (arg : Nat)
    (data : apicmd_cmddat_getdynamicpsmres_s) (c : Run) (fn : Nat)
    (h : pendingCallback c.world env.APICMDID_GET_DYNAMICPSM = some (some fn)) :
    (∃ evs, (get_dynamicpsm_job env arg data c).trace = c.trace ++ evs ∧
      ∃ result psm, callbacksOf evs = [(fn, result, psm)] ∧
        (result = LTE_RESULT_OK ↔
          data.result = LTE_RESULT_OK ∧
            0 ≤ env.check_psm (env.set_psm data.set lte_psm_setting_t.zero).2) ∧
        (result = LTE_RESULT_OK ∨ result = LTE_RESULT_ERROR) ∧
        (data.result = LTE_RESULT_OK →
          psm = (env.set_psm data.set lte_psm_setting_t.zero).2) ∧
        (data.result ≠ LTE_RESULT_OK → psm = lte_psm_setting_t.zero)) ∧
    (∀ c1 : Run,
      (pendingCallback c1.world env.APICMDID_GET_DYNAMICPSM = none ∨
        pendingCallback c1.world env.APICMDID_GET_DYNAMICPSM = some none) →
      ∃ evs, (get_dynamicpsm_job env arg data c1).trace = c1.trace ++ evs ∧
        callbacksOf evs = []) := by
  refine ⟨?_, fun c1 h1 => get_dynamicpsm_job_no_callback env arg data c1 h1⟩
  by_cases hr : LTE_RESULT_OK = data.result
  · by_cases hk : env.check_psm (env.set_psm data.set lte_psm_setting_t.zero).2 < 0
    · have hk' : ¬ 0 ≤ env.check_psm (env.set_psm data.set lte_psm_setting_t.zero).2 :=
        not_le.mpr hk
      simp [get_dynamicpsm_job, altcomcallbacks_get_unreg_cb, altcom_free_cmd,
        altcomstatus_unreg_statchgcb, altcombs_set_psm, invoke_callback, Run.emit, h,
        callbacksOf, hr, hk, hk', hr.symm, LTE_RESULT_OK, LTE_RESULT_ERROR]
      exact ⟨1, _, ⟨rfl, rfl⟩, by decide, Or.inr rfl, rfl⟩
    · have hk' : 0 ≤ env.check_psm (env.set_psm data.set lte_psm_setting_t.zero).2 :=
        not_lt.mp hk
      simp [get_dynamicpsm_job, altcomcallbacks_get_unreg_cb, altcom_free_cmd,
        altcomstatus_unreg_statchgcb, altcombs_set_psm, invoke_callback, Run.emit, h,
        callbacksOf, hr, hk, hk', hr.symm, LTE_RESULT_OK, LTE_RESULT_ERROR]
      exact ⟨0, _, ⟨rfl, rfl⟩, rfl, Or.inl rfl, rfl⟩
  · have hr' : ¬ data.result = LTE_RESULT_OK := fun e => hr e.symm
    simp [get_dynamicpsm_job, altcomcallbacks_get_unreg_cb, altcom_free_cmd,
      altcomstatus_unreg_statchgcb, altcombs_set_psm, invoke_callback, Run.emit, h,
      callbacksOf, hr, hr', LTE_RESULT_ERROR]
    exact ⟨1, _, ⟨rfl, rfl⟩, by decide, Or.inr rfl, rfl⟩

/-- Witness of C5: the job run on the response of `env0` while callback 5 is pending. -/
theorem C5_job_invokes_pending_callback_exactly_once_witness :
    pendingCallback run_pending.world env0.APICMDID_GET_DYNAMICPSM = some (some 5) ∧
    ∃ evs, (get_dynamicpsm_job env0 99 env0.psm_res run_pending).trace =
        run_pending.trace ++ evs ∧
      ∃ result psm, callbacksOf evs = [(5, result, psm)] ∧
        (result = LTE_RESULT_OK ↔
          env0.psm_res.result = LTE_RESULT_OK ∧
            0 ≤ env0.check_psm (env0.set_psm env0.psm_res.set lte_psm_setting_t.zero).2) ∧
        (result = LTE_RESULT_OK ∨ result = LTE_RESULT_ERROR) ∧
        (env0.psm_res.result = LTE_RESULT_OK →
          psm = (env0.set_psm env0.psm_res.set lte_psm_setting_t.zero).2) ∧
        (env0.psm_res.result ≠ LTE_RESULT_OK → psm = lte_psm_setting_t.zero) :=
  ⟨by decide,
    (C5_job_invokes_pending_callback_exactly_once env0 99 env0.psm_res run_pending 5
      (by decide)).1⟩

/-- C6: every run of `get_dynamicpsm_job` performs its steps in this order: first the
lookup-and-remove `altcomcallbacks_get_unreg_cb(APICMDID_GET_DYNAMICPSM)`; then the
decoding steps (load of the result code, conversion, check), only when a callback was
found; then at most one callback invocation, which sees a registry without an entry for
the identifier; then the one release `altcom_free_cmd(arg)` of the response buffer;
and last the one call `altcomstatus_unreg_statchgcb(getdynamicpsm_status_chg_cb)`. -/
theorem C6_job_steps_in_order (env : Env) (arg : Nat)
    (data : apicmd_cmddat_getdynamicpsmres_s) (c : Run) :
    ∃ decode cbs,
      (get_dynamicpsm_job env arg data c).trace =
        c.trace ++
          (Event.altcomcallbacks_get_unreg_cb env.APICMDID_GET_DYNAMICPSM
            (altcomcallbacks_get_unreg_cb env.APICMDID_GET_DYNAMICPSM c).ret
            (altcomcallbacks_get_unreg_cb env.APICMDID_GET_DYNAMICPSM c).callback ::
              decode) ++ cbs ++
          [Event.altcom_free_cmd arg,
           Event.altcomstatus_unreg_statchgcb Observer.getdynamicpsm_status_chg_cb] ∧
      (∀ e ∈ decode, e.isDecode = true) ∧
      freed (decode ++ cbs) = [] ∧
      pending (c.world.without env.APICMDID_GET_DYNAMICPSM) env.APICMDID_GET_DYNAMICPSM
        = false ∧
      ((cbs = [] ∧ decode = [] ∧
          (get_dynamicpsm_job env arg data c).world =
            (c.world.without env.APICMDID_GET_DYNAMICPSM).afterJob arg) ∨
        (∃ fn result psm, cbs = [Event.callback fn result psm] ∧
          (get_dynamicpsm_job env arg data c).world =
            (env.callback fn result psm
              (c.world.without env.APICMDID_GET_DYNAMICPSM)).afterJob arg)) := by
  have hpend : pending (c.world.without env.APICMDID_GET_DYNAMICPSM)
      env.APICMDID_GET_DYNAMICPSM = false := by
    simp [pending, pendingCallback_without]
  rcases h : pendingCallback c.world env.APICMDID_GET_DYNAMICPSM with _ | _ | fn
  · refine ⟨[], [], ?_, ?_, rfl, hpend, Or.inl ⟨rfl, rfl, ?_⟩⟩
    · simp [get_dynamicpsm_job, altcomcallbacks_get_unreg_cb, altcom_free_cmd,
        altcomstatus_unreg_statchgcb, Run.emit, h]
    · simp
    · rw [without_of_not_pending c.world _ h]
      simp [get_dynamicpsm_job, altcomcallbacks_get_unreg_cb, altcom_free_cmd,
        altcomstatus_unreg_statchgcb, Run.emit, h, World.afterJob]
  · refine ⟨[], [], ?_, ?_, rfl, hpend, Or.inl ⟨rfl, rfl, ?_⟩⟩
    · simp [get_dynamicpsm_job, altcomcallbacks_get_unreg_cb, altcom_free_cmd,
        altcomstatus_unreg_statchgcb, Run.emit, h]
    · simp
    · simp [get_dynamicpsm_job, altcomcallbacks_get_unreg_cb, altcom_free_cmd,
        altcomstatus_unreg_statchgcb, Run.emit, h, World.afterJob, World.without]
  · by_cases hr : LTE_RESULT_OK = data.result
    · by_cases hk : env.check_psm (env.set_psm data.set lte_psm_setting_t.zero).2 < 0
      · refine ⟨[Event.load_result,
            Event.altcombs_set_psm data.set (env.set_psm data.set lte_psm_setting_t.zero).1,
            Event.altcombs_check_psm (env.set_psm data.set lte_psm_setting_t.zero).2
              (env.check_psm (env.set_psm data.set lte_psm_setting_t.zero).2)],
          [Event.callback fn LTE_RESULT_ERROR (env.set_psm data.set lte_psm_setting_t.zero).2],
          ?_, ?_, rfl, hpend, Or.inr ⟨_, _, _, rfl, ?_⟩⟩
        · simp [get_dynamicpsm_job, altcomcallbacks_get_unreg_cb, altcom_free_cmd,
            altcomstatus_unreg_statchgcb, altcombs_set_psm, invoke_callback, Run.emit, h,
            hr, hk]
        · simp [Event.isDecode]
        · simp [get_dynamicpsm_job, altcomcallbacks_get_unreg_cb, altcom_free_cmd,
            altcomstatus_unreg_statchgcb, altcombs_set_psm, invoke_callback, Run.emit, h,
            hr, hk, World.afterJob, World.without]
      · refine ⟨[Event.load_result,
            Event.altcombs_set_psm data.set (env.set_psm data.set lte_psm_setting_t.zero).1,
            Event.altcombs_check_psm (env.set_psm data.set lte_psm_setting_t.zero).2
              (env.check_psm (env.set_psm data.set lte_psm_setting_t.zero).2)],
          [Event.callback fn LTE_RESULT_OK (env.set_psm data.set lte_psm_setting_t.zero).2],
          ?_, ?_, rfl, hpend, Or.inr ⟨_, _, _, rfl, ?_⟩⟩
        · simp [get_dynamicpsm_job, altcomcallbacks_get_unreg_cb, altcom_free_cmd,
            altcomstatus_unreg_statchgcb, altcombs_set_psm, invoke_callback, Run.emit, h,
            hr, hk]
        · simp [Event.isDecode]
        · simp [get_dynamicpsm_job, altcomcallbacks_get_unreg_cb, altcom_free_cmd,
            altcomstatus_unreg_statchgcb, altcombs_set_psm, invoke_callback, Run.emit, h,
            hr, hk, World.afterJob, World.without]
    · refine ⟨[Event.load_result],
        [Event.callback fn LTE_RESULT_ERROR lte_psm_setting_t.zero],
        ?_, ?_, rfl, hpend, Or.inr ⟨_, _, _, rfl, ?_⟩⟩
      · simp [get_dynamicpsm_job, altcomcallbacks_get_unreg_cb, altcom_free_cmd,
          altcomstatus_unreg_statchgcb, altcombs_set_psm, invoke_callback, Run.emit, h, hr]
      · simp [Event.isDecode]
      · simp [get_dynamicpsm_job, altcomcallbacks_get_unreg_cb, altcom_free_cmd,
          altcomstatus_unreg_statchgcb, altcombs_set_psm, invoke_callback, Run.emit, h,
          hr, World.afterJob, World.without]

/-! ### The status observer -/

/-- C7: `getdynamicpsm_status_chg_cb` returns `ALTCOM_STATUS_REG_CLR` exactly when
`new_stat < ALTCOM_STATUS_POWER_ON`; in that case its one step is
`altcomcallbacks_unreg_cb(APICMDID_GET_DYNAMICPSM)` and no entry for the identifier is
pending afterwards; otherwise it returns `ALTCOM_STATUS_REG_KEEP` and leaves the run
(registry included) as it was.  After a clearing transition, a run of
`get_dynamicpsm_job` on a state with the registry the transition left invokes no
callback. -/
theorem C7_status_change_clears_below_power_on (env : Env) (new_stat old_stat : Int)
    (c : Run) :
    ((getdynamicpsm_status_chg_cb env new_stat old_stat c).ret = ALTCOM_STATUS_REG_CLR ↔
      new_stat < env.ALTCOM_STATUS_POWER_ON) ∧
    (new_stat < env.ALTCOM_STATUS_POWER_ON →
      (getdynamicpsm_status_chg_cb env new_stat old_stat c).run =
        altcomcallbacks_unreg_cb env.APICMDID_GET_DYNAMICPSM c ∧
      (getdynamicpsm_status_chg_cb env new_stat old_stat c).run.world =
        c.world.without env.APICMDID_GET_DYNAMICPSM ∧
      pending (getdynamicpsm_status_chg_cb env new_stat old_stat c).run.world
        env.APICMDID_GET_DYNAMICPSM = false) ∧
    (¬ new_stat < env.ALTCOM_STATUS_POWER_ON →
      (getdynamicpsm_status_chg_cb env new_stat old_stat c).ret = ALTCOM_STATUS_REG_KEEP ∧
      (getdynamicpsm_status_chg_cb env new_stat old_stat c).run = c) ∧
    (new_stat < env.ALTCOM_STATUS_POWER_ON →
      ∀ (arg : Nat) (data : apicmd_cmddat_getdynamicpsmres_s) (c1 : Run),
        c1.world.registry =
          (getdynamicpsm_status_chg_cb env new_stat old_stat c).run.world.registry →
        ∃ evs, (get_dynamicpsm_job env arg data c1).trace = c1.trace ++ evs ∧
          callbacksOf evs = []) := by
  refine ⟨?_, ?_, ?_, ?_⟩
  · by_cases h : new_stat < env.ALTCOM_STATUS_POWER_ON <;>
      simp [getdynamicpsm_status_chg_cb, h, ALTCOM_STATUS_REG_CLR, ALTCOM_STATUS_REG_KEEP]
  · intro h
    refine ⟨by simp [getdynamicpsm_status_chg_cb, h], ?_, ?_⟩
    · simp [getdynamicpsm_status_chg_cb, h, altcomcallbacks_unreg_cb, World.without]
    · have := pendingCallback_without c.world env.APICMDID_GET_DYNAMICPSM
      simp [getdynamicpsm_status_chg_cb, h, altcomcallbacks_unreg_cb, pending,
        pendingCallback, World.without, List.find?_eq_none]
  · intro h
    simp [getdynamicpsm_status_chg_cb, h]
  · intro h arg data c1 hreg
    apply get_dynamicpsm_job_no_callback
    left
    have hw := pendingCallback_without c.world env.APICMDID_GET_DYNAMICPSM
    simp only [getdynamicpsm_status_chg_cb, h, if_true, altcomcallbacks_unreg_cb] at hreg
    simp only [pendingCallback, World.without] at hw ⊢
    rw [hreg]
    exact hw

/-- Witness of C7: the device drops from state 3 to state 1, below the power-on
threshold 3 of `env0`, while callback 5 is pending; the response that arrives later
invokes no callback. -/
theorem C7_status_change_clears_below_power_on_witness :
    (1 : Int) < env0.ALTCOM_STATUS_POWER_ON ∧
    pending run_pending.world env0.APICMDID_GET_DYNAMICPSM = true ∧
    (getdynamicpsm_status_chg_cb env0 1 3 run_pending).ret = ALTCOM_STATUS_REG_CLR ∧
    ∃ evs, (get_dynamicpsm_job env0 99 env0.psm_res
        (getdynamicpsm_status_chg_cb env0 1 3 run_pending).run).trace =
          (getdynamicpsm_status_chg_cb env0 1 3 run_pending).run.trace ++ evs ∧
      callbacksOf evs = [] :=
  ⟨by decide, by decide,
    (C7_status_change_clears_below_power_on env0 1 3 run_pending).1.mpr (by decide),
    (C7_status_change_clears_below_power_on env0 1 3 run_pending).2.2.2 (by decide) 99
      env0.psm_res (getdynamicpsm_status_chg_cb env0 1 3 run_pending).run rfl⟩

/-! ### Return codes -/

set_option maxHeartbeats 2000000 in
/-- Whenever `apicmdgw_send` is called from `lte_getcurrentpsm_impl` and returns a
negative code, that code is the return value. -/
theorem lte_getcurrentpsm_impl_send_failure (env : Env)
    (settings : Option lte_psm_setting_t) (callback : Option Nat) (c : Run) :
    ∃ evs, (lte_getcurrentpsm_impl env settings callback c).run.trace = c.trace ++ evs ∧
      ∀ r, sendRet evs = some r → r < 0 →
        (lte_getcurrentpsm_impl env settings callback c).ret = r := by
  unfold lte_getcurrentpsm_impl
  simp only [apicmdgw_cmd_allocbuff, altcombs_setup_apicallback, apicmdgw_send,
    altcom_free_cmd, altcombs_teardown_apicallback, altcombs_set_psm, Run.emit]
  rcases hca : env.cmd_allocbuff with _ | p <;> rcases settings with _ | s <;>
    rcases callback with _ | fn <;> simp <;> (try split_ifs) <;>
    simp [List.append_assoc, sendRet] <;> intros <;> omega

/-- Whenever `apicmdgw_send` is called from `mbedtls_md_digest` and returns a negative
code, that code is the return value. -/
theorem mbedtls_md_digest_send_failure (env : Env) (md_id chain_id : Nat)
    (output : List Nat) (c : Run) :
    ∃ evs, (mbedtls_md_digest env md_id chain_id output c).run.trace = c.trace ++ evs ∧
      ∀ r, sendRet evs = some r → r < 0 →
        (mbedtls_md_digest env md_id chain_id output c).ret = r := by
  unfold mbedtls_md_digest md_digest_request
  simp only [altcom_mbedtls_alloc_cmdandresbuff, apicmdgw_send, altcom_seterrno,
    altcom_mbedtls_free_cmdandresbuff, Run.emit]
  rcases hca : env.alloc_cmdandresbuff with _ | ⟨cmd, res⟩ <;> simp <;>
    (try split_ifs) <;> simp [List.append_assoc, sendRet] <;> intros <;> omega

/-- Whenever `apicmdgw_send` is called from `mbedtls_x509write_crt_set_serial` and
returns a negative code, the return value is `MBEDTLS_ERR_X509_BAD_INPUT_DATA`. -/
theorem mbedtls_x509write_crt_set_serial_send_failure (env : Env) (ctx_id serial_id : Nat)
    (c : Run) :
    ∃ evs, (mbedtls_x509write_crt_set_serial env ctx_id serial_id c).run.trace =
        c.trace ++ evs ∧
      ∀ r, sendRet evs = some r → r < 0 →
        (mbedtls_x509write_crt_set_serial env ctx_id serial_id c).ret =
          MBEDTLS_ERR_X509_BAD_INPUT_DATA := by
  unfold mbedtls_x509write_crt_set_serial x509write_crt_serial_request
  simp only [altcom_mbedtls_alloc_cmdandresbuff, apicmdgw_send, altcom_seterrno,
    altcom_mbedtls_free_cmdandresbuff, Run.emit]
  rcases hca : env.alloc_cmdandresbuff with _ | ⟨cmd, res⟩ <;> simp only [] <;>
    split_ifs <;> simp [List.append_assoc, sendRet]
  intro h
  omega

/-- C8 (as stated, refuted): with a transport that fails with `-5`,
`mbedtls_x509write_crt_set_serial` does call `apicmdgw_send`, which returns `-5`, and
the call returns `MBEDTLS_ERR_X509_BAD_INPUT_DATA`, not `-5`. -/
theorem C8_x509_send_failure_not_propagated :
    env_send_fails.send_ret = -5 ∧
    sendRet (mbedtls_x509write_crt_set_serial env_send_fails 1 2 run0).run.trace =
      some (-5) ∧
    (mbedtls_x509write_crt_set_serial env_send_fails 1 2 run0).ret =
      MBEDTLS_ERR_X509_BAD_INPUT_DATA ∧
    (mbedtls_x509write_crt_set_serial env_send_fails 1 2 run0).ret ≠
      env_send_fails.send_ret := by
  decide

/-- C8 (amended): whenever `apicmdgw_send` is called and returns a negative code `r`,
`lte_getcurrentpsm_impl` (synchronous or asynchronous) and `mbedtls_md_digest` return
exactly `r`, and `mbedtls_x509write_crt_set_serial` returns
`MBEDTLS_ERR_X509_BAD_INPUT_DATA` whatever `r` is. -/
theorem C8_send_failure_code (env : Env) (settings : Option lte_psm_setting_t)
    (callback : Option Nat) (md_id chain_id : Nat) (output : List Nat)
    (ctx_id serial_id : Nat) (c : Run) :
    (∃ evs, (lte_getcurrentpsm_impl env settings callback c).run.trace = c.trace ++ evs ∧
      ∀ r, sendRet evs = some r → r < 0 →
        (lte_getcurrentpsm_impl env settings callback c).ret = r) ∧
    (∃ evs, (mbedtls_md_digest env md_id chain_id output c).run.trace = c.trace ++ evs ∧
      ∀ r, sendRet evs = some r → r < 0 →
        (mbedtls_md_digest env md_id chain_id output c).ret = r) ∧
    (∃ evs, (mbedtls_x509write_crt_set_serial env ctx_id serial_id c).run.trace =
        c.trace ++ evs ∧
      ∀ r, sendRet evs = some r → r < 0 →
        (mbedtls_x509write_crt_set_serial env ctx_id serial_id c).ret =
          MBEDTLS_ERR_X509_BAD_INPUT_DATA) :=
  ⟨lte_getcurrentpsm_impl_send_failure env settings callback c,
    mbedtls_md_digest_send_failure env md_id chain_id output c,
    mbedtls_x509write_crt_set_serial_send_failure env ctx_id serial_id c⟩

/-- Witness of C8: the asynchronous call with callback 5 over a transport that fails
with `-5` returns `-5`. -/
theorem C8_send_failure_code_witness :
    (lte_getcurrentpsm_impl env_send_fails none (some 5) run0).ret = -5 := by
  obtain ⟨evs, htr, h⟩ :=
    (C8_send_failure_code env_send_fails none (some 5) 1 2 [] 1 2 run0).1
  have he : (lte_getcurrentpsm_impl env_send_fails none (some 5) run0).run.trace = evs := by
    rw [htr]
    rfl
  subst he
  exact h (-5) (by decide) (by decide)

/-- When the power-on check fails, `lte_getcurrentpsm_impl` called with valid arguments
returns the negative code of the check, and the check is its only step. -/
theorem lte_getcurrentpsm_impl_not_powered_on (env : Env)
    (settings : Option lte_psm_setting_t) (callback : Option Nat) (c : Run)
    (ha : ¬ (settings = none ∧ callback = none)) (hp : env.poweron_status < 0) :
    lte_getcurrentpsm_impl env settings callback c =
      { ret := env.poweron_status
        settings := settings
        run := c.emit (Event.altcombs_check_poweron_status env.poweron_status) } := by
  rcases settings with _ | s <;> rcases callback with _ | fn <;>
    simp_all [lte_getcurrentpsm_impl]

/-- When `altcom_isinit()` is false, `mbedtls_x509write_crt_set_serial` returns the
negative code `MBEDTLS_ERR_X509_BAD_INPUT_DATA`; its only steps are the check and
`altcom_seterrno(ALTCOM_ENETDOWN)`. -/
theorem mbedtls_x509write_crt_set_serial_not_initialised (env : Env) (ctx_id serial_id : Nat)
    (c : Run) (hi : env.isinit = false) :
    mbedtls_x509write_crt_set_serial env ctx_id serial_id c =
      { ret := MBEDTLS_ERR_X509_BAD_INPUT_DATA
        run := altcom_seterrno ALTCOM_ENETDOWN (c.emit (Event.altcom_isinit false)) } ∧
    MBEDTLS_ERR_X509_BAD_INPUT_DATA < 0 := by
  refine ⟨by simp [mbedtls_x509write_crt_set_serial, hi], by decide⟩

/-- When `altcom_isinit()` is false, `mbedtls_md_digest` returns 0 and leaves the
output as it was; its only steps are the check and `altcom_seterrno(ALTCOM_ENETDOWN)`. -/
theorem mbedtls_md_digest_not_initialised (env : Env) (md_id chain_id : Nat)
    (output : List Nat) (c : Run) (hi : env.isinit = false) :
    mbedtls_md_digest env md_id chain_id output c =
      { ret := 0
        output := output
        run := altcom_seterrno ALTCOM_ENETDOWN (c.emit (Event.altcom_isinit false)) } := by
  simp [mbedtls_md_digest, hi]

/-- C9 (the code at the failing input): `mbedtls_md_digest` called while
`altcom_isinit()` is false.  The call performs no allocation and no send and sets errno
to `ALTCOM_ENETDOWN`, and it returns 0, the success code, with the output untouched. -/
theorem C9_md_digest_returns_zero_when_not_initialised :
    env_not_init.isinit = false ∧
    (mbedtls_md_digest env_not_init 1 2 [0, 0, 0] run0).ret = 0 ∧
    (mbedtls_md_digest env_not_init 1 2 [0, 0, 0] run0).output = [0, 0, 0] ∧
    (mbedtls_md_digest env_not_init 1 2 [0, 0, 0] run0).run.trace =
      [Event.altcom_isinit false, Event.altcom_seterrno ALTCOM_ENETDOWN] ∧
    (mbedtls_md_digest env_not_init 1 2 [0, 0, 0] run0).run.world.errno = ALTCOM_ENETDOWN := by
  decide

/-- C10 (as stated, refuted): two digest responses of the right length that carry the
different non-success codes `-1` and `-0x5100` make `mbedtls_md_digest` return `-1` and
`-0x5100`: the wire code itself, not one fixed local code. -/
theorem C10_md_digest_passes_wire_code_through :
    0 ≤ env_md_remote_a.send_ret ∧
    env_md_remote_a.send_reslen = env_md_remote_a.MD_DIGEST_RES_DATALEN ∧
    toInt32 (ntohl env_md_remote_a.md_res.ret_code) = -1 ∧
    toInt32 (ntohl env_md_remote_b.md_res.ret_code) = -0x5100 ∧
    (mbedtls_md_digest env_md_remote_a 1 2 [0, 0, 0] run0).ret = -1 ∧
    (mbedtls_md_digest env_md_remote_b 1 2 [0, 0, 0] run0).ret = -0x5100 ∧
    (mbedtls_md_digest env_md_remote_a 1 2 [0, 0, 0] run0).ret ≠
      (mbedtls_md_digest env_md_remote_b 1 2 [0, 0, 0] run0).ret := by
  decide

/-- C10 (amended): after a successful exchange, `lte_get_current_psm_sync` returns a
translated code: `-EPROTO` for every wire result other than `LTE_RESULT_OK`, and for
`LTE_RESULT_OK` the outcome of the conversion (`-EFAULT` when `altcombs_set_psm` is
negative, its return value otherwise).  After a successful exchange with a response
of the fixed length, `mbedtls_md_digest` and `mbedtls_x509write_crt_set_serial` return
the response's `ret_code` converted by `ntohl`, that is the remote code itself. -/
theorem C10_result_code_after_exchange (env : Env) (s : lte_psm_setting_t)
    (md_id chain_id : Nat) (output : List Nat) (ctx_id serial_id : Nat) (c : Run)
    (hs : 0 ≤ env.send_ret) :
    (0 ≤ env.poweron_status →
      env.get_cmdid env.APICMDID_GET_DYNAMICPSM ≠ env.APICMDID_UNKNOWN →
      env.protocolversion ≠ env.APICMD_VER_V4 →
      env.cmd_allocbuff ≠ none →
      (lte_get_current_psm_sync env (some s) c).ret =
        if env.psm_res.result = LTE_RESULT_OK then
          (if (env.set_psm env.psm_res.set s).1 < 0 then -EFAULT
            else (env.set_psm env.psm_res.set s).1)
        else -EPROTO) ∧
    (env.isinit = true →
      env.alloc_cmdandresbuff ≠ none →
      env.send_reslen = env.MD_DIGEST_RES_DATALEN →
      (mbedtls_md_digest env md_id chain_id output c).ret =
        toInt32 (ntohl env.md_res.ret_code)) ∧
    (env.isinit = true →
      env.protocolversion = env.APICMD_VER_V1 →
      env.alloc_cmdandresbuff ≠ none →
      env.send_reslen = env.X509WRITE_CRT_SERIAL_RES_DATALEN →
      (mbedtls_x509write_crt_set_serial env ctx_id serial_id c).ret =
        toInt32 (ntohl env.x509_res.ret_code)) := by
  have hs' : ¬ env.send_ret < 0 := not_lt.mpr hs
  refine ⟨?_, ?_, ?_⟩
  · intro hp hc hv ha
    have hp' : ¬ env.poweron_status < 0 := not_lt.mpr hp
    obtain ⟨p, hp2⟩ := Option.ne_none_iff_exists'.mp ha
    by_cases hr : env.psm_res.result = LTE_RESULT_OK
    · by_cases hk : (env.set_psm env.psm_res.set s).1 < 0 <;>
        simp [lte_get_current_psm_sync, lte_getcurrentpsm_impl, apicmdgw_cmd_allocbuff,
          apicmdgw_send, altcom_free_cmd, altcombs_set_psm, Run.emit, hp', hc, hv, hp2,
          hs', hr, hk]
    · have hr' : ¬ LTE_RESULT_OK = env.psm_res.result := fun e => hr e.symm
      simp [lte_get_current_psm_sync, lte_getcurrentpsm_impl, apicmdgw_cmd_allocbuff,
        apicmdgw_send, altcom_free_cmd, altcombs_set_psm, Run.emit, hp', hc, hv, hp2,
        hs', hr, hr']
  · intro hi ha hl
    obtain ⟨⟨cmd, res⟩, hp2⟩ := Option.ne_none_iff_exists'.mp ha
    simp [mbedtls_md_digest, md_digest_request, altcom_mbedtls_alloc_cmdandresbuff,
      apicmdgw_send, altcom_mbedtls_free_cmdandresbuff, Run.emit, hi, hp2, hs', hl]
  · intro hi hv ha hl
    obtain ⟨⟨cmd, res⟩, hp2⟩ := Option.ne_none_iff_exists'.mp ha
    simp [mbedtls_x509write_crt_set_serial, x509write_crt_serial_request,
      altcom_mbedtls_alloc_cmdandresbuff, apicmdgw_send, altcom_mbedtls_free_cmdandresbuff,
      Run.emit, hi, hv, hp2, hs', hl]

/-- Witness of C10: the successful exchanges of `env0`. -/
theorem C10_result_code_after_exchange_witness :
    0 ≤ env0.send_ret ∧
    (lte_get_current_psm_sync env0 (some lte_psm_setting_t.zero) run0).ret =
      (if env0.psm_res.result = LTE_RESULT_OK then
        (if (env0.set_psm env0.psm_res.set lte_psm_setting_t.zero).1 < 0 then -EFAULT
          else (env0.set_psm env0.psm_res.set lte_psm_setting_t.zero).1)
      else -EPROTO) ∧
    (mbedtls_md_digest env0 1 2 [0, 0, 0] run0).ret = toInt32 (ntohl env0.md_res.ret_code) ∧
    (mbedtls_x509write_crt_set_serial env0 1 2 run0).ret =
      toInt32 (ntohl env0.x509_res.ret_code) :=
  ⟨by decide,
    (C10_result_code_after_exchange env0 lte_psm_setting_t.zero 1 2 [0, 0, 0] 1 2 run0
      (by decide)).1 (by decide) (by decide) (by decide) (by decide),
    (C10_result_code_after_exchange env0 lte_psm_setting_t.zero 1 2 [0, 0, 0] 1 2 run0
      (by decide)).2.1 rfl (by decide) rfl,
    (C10_result_code_after_exchange env0 lte_psm_setting_t.zero 1 2 [0, 0, 0] 1 2 run0
      (by decide)).2.2 rfl rfl (by decide) rfl⟩

/-! ### The synchronous exchange and the delegation -/

/-- C11: a synchronous call `lte_get_current_psm_sync(settings)` with a non-NULL slot,
the device operational, the command id resolved, a protocol version other than V4, the
request buffer allocated and a non-negative answer of `apicmdgw_send`.  It returns 0
exactly when the response's result is `LTE_RESULT_OK` and `altcombs_set_psm` returns
0; when the result is `LTE_RESULT_OK` the slot holds the conversion of the response's
settings, and the call returns `-EFAULT` when the conversion is negative (and the
conversion's own code when it is not).  When the result is not `LTE_RESULT_OK` it
returns `-EPROTO`, the slot keeps its content and `altcombs_set_psm` is not called.
The registry and the observers are unchanged, and the steps of the call contain no
registration and no teardown. -/
theorem C11_sync_exchange_result (env : Env) (s : lte_psm_setting_t) (p : Nat) (c : Run)
    (hp : 0 ≤ env.poweron_status)
    (hc : env.get_cmdid env.APICMDID_GET_DYNAMICPSM ≠ env.APICMDID_UNKNOWN)
    (hv : env.protocolversion ≠ env.APICMD_VER_V4)
    (ha : env.cmd_allocbuff = some p)
    (hs : 0 ≤ env.send_ret) :
    ((lte_get_current_psm_sync env (some s) c).ret = 0 ↔
      env.psm_res.result = LTE_RESULT_OK ∧ (env.set_psm env.psm_res.set s).1 = 0) ∧
    (env.psm_res.result = LTE_RESULT_OK →
      (lte_get_current_psm_sync env (some s) c).settings =
        some (env.set_psm env.psm_res.set s).2 ∧
      ((env.set_psm env.psm_res.set s).1 < 0 →
        (lte_get_current_psm_sync env (some s) c).ret = -EFAULT) ∧
      (0 ≤ (env.set_psm env.psm_res.set s).1 →
        (lte_get_current_psm_sync env (some s) c).ret = (env.set_psm env.psm_res.set s).1)) ∧
    (env.psm_res.result ≠ LTE_RESULT_OK →
      (lte_get_current_psm_sync env (some s) c).ret = -EPROTO ∧
      (lte_get_current_psm_sync env (some s) c).settings = some s) ∧
    (lte_get_current_psm_sync env (some s) c).run.world.registry = c.world.registry ∧
    (lte_get_current_psm_sync env (some s) c).run.world.observers = c.world.observers ∧
    (lte_get_current_psm_sync env (some s) c).run.trace =
      c.trace ++
        [Event.altcombs_check_poweron_status env.poweron_status,
         Event.apicmdgw_get_cmdid env.APICMDID_GET_DYNAMICPSM
           (env.get_cmdid env.APICMDID_GET_DYNAMICPSM),
         Event.apicmdgw_get_protocolversion env.protocolversion,
         Event.apicmdgw_cmd_allocbuff (env.get_cmdid env.APICMDID_GET_DYNAMICPSM) 0 (some p),
         Event.apicmdgw_send p [] (some 0) env.RES_DATA_LEN env.send_ret env.send_reslen,
         Event.altcom_free_cmd p,
         Event.load_result] ++
        (if env.psm_res.result = LTE_RESULT_OK then
          [Event.altcombs_set_psm env.psm_res.set (env.set_psm env.psm_res.set s).1]
        else []) := by
  have hp' : ¬ env.poweron_status < 0 := not_lt.mpr hp
  have hs' : ¬ env.send_ret < 0 := not_lt.mpr hs
  by_cases hr : env.psm_res.result = LTE_RESULT_OK
  · by_cases hk : (env.set_psm env.psm_res.set s).1 < 0
    · have hk0 : ¬ (env.set_psm env.psm_res.set s).1 = 0 := by omega
      have hk1 : ¬ 0 ≤ (env.set_psm env.psm_res.set s).1 := not_le.mpr hk
      simp [lte_get_current_psm_sync, lte_getcurrentpsm_impl, apicmdgw_cmd_allocbuff,
        apicmdgw_send, altcom_free_cmd, altcombs_set_psm, Run.emit, hp', hc, hv, ha,
        hs', hr, hk, hk0, hk1, EFAULT]
    · have hk1 : 0 ≤ (env.set_psm env.psm_res.set s).1 := not_lt.mp hk
      simp [lte_get_current_psm_sync, lte_getcurrentpsm_impl, apicmdgw_cmd_allocbuff,
        apicmdgw_send, altcom_free_cmd, altcombs_set_psm, Run.emit, hp', hc, hv, ha,
        hs', hr, hk, hk1]
  · have hr' : ¬ LTE_RESULT_OK = env.psm_res.result := fun e => hr e.symm
    simp [lte_get_current_psm_sync, lte_getcurrentpsm_impl, apicmdgw_cmd_allocbuff,
      apicmdgw_send, altcom_free_cmd, altcombs_set_psm, Run.emit, hp', hc, hv, ha,
      hs', hr, hr', EPROTO]

/-- Witness of C11: the successful synchronous exchange of `env0`, which converts the
response bytes 1 2 3 4 5. -/
theorem C11_sync_exchange_result_witness :
    (lte_get_current_psm_sync env0 (some lte_psm_setting_t.zero) run0).ret = 0 ∧
    (lte_get_current_psm_sync env0 (some lte_psm_setting_t.zero) run0).settings =
      some (env0.set_psm env0.psm_res.set lte_psm_setting_t.zero).2 :=
  ⟨(C11_sync_exchange_result env0 lte_psm_setting_t.zero 7 run0 (by decide) (by decide)
      (by decide) rfl (by decide)).1.mpr ⟨rfl, rfl⟩,
    ((C11_sync_exchange_result env0 lte_psm_setting_t.zero 7 run0 (by decide) (by decide)
      (by decide) rfl (by decide)).2.1 rfl).1⟩

/-- C12: a call of `lte_getcurrentpsm_impl` with at least one argument non-NULL and
the device operational.  When the command identifier resolves and the protocol version
is `APICMD_VER_V4`, the return value, the content of the output slot and the world are
those of `lte_getpsm_impl(ALTCOM_GETPSM_TYPE_NEGOTIATED, settings, callback)`, and the
steps of the call are the power check, the two gateway queries and the delegation:
no registration, no allocation, no send.  When the identifier resolves to
`APICMDID_UNKNOWN`, the call returns `-ENETDOWN` after the power check and the
identifier query alone, with slot and world unchanged. -/
theorem C12_v4_delegates_and_unknown_fails_fast (env : Env)
    (settings : Option lte_psm_setting_t) (callback : Option Nat) (c : Run)
    (ha : ¬ (settings = none ∧ callback = none)) (hp : 0 ≤ env.poweron_status) :
    (env.get_cmdid env.APICMDID_GET_DYNAMICPSM ≠ env.APICMDID_UNKNOWN →
      env.protocolversion = env.APICMD_VER_V4 →
      (lte_getcurrentpsm_impl env settings callback c).ret =
        (env.getpsm_impl env.ALTCOM_GETPSM_TYPE_NEGOTIATED settings callback c.world).1 ∧
      (lte_getcurrentpsm_impl env settings callback c).settings =
        (env.getpsm_impl env.ALTCOM_GETPSM_TYPE_NEGOTIATED settings callback c.world).2.1 ∧
      (lte_getcurrentpsm_impl env settings callback c).run.world =
        (env.getpsm_impl env.ALTCOM_GETPSM_TYPE_NEGOTIATED settings callback c.world).2.2 ∧
      (lte_getcurrentpsm_impl env settings callback c).run.trace =
        c.trace ++
          [Event.altcombs_check_poweron_status env.poweron_status,
           Event.apicmdgw_get_cmdid env.APICMDID_GET_DYNAMICPSM
             (env.get_cmdid env.APICMDID_GET_DYNAMICPSM),
           Event.apicmdgw_get_protocolversion env.protocolversion,
           Event.lte_getpsm_impl env.ALTCOM_GETPSM_TYPE_NEGOTIATED settings.isSome
             callback]) ∧
    (env.get_cmdid env.APICMDID_GET_DYNAMICPSM = env.APICMDID_UNKNOWN →
      lte_getcurrentpsm_impl env settings callback c =
        { ret := -ENETDOWN
          settings := settings
          run :=
            { world := c.world
              trace := c.trace ++
                [Event.altcombs_check_poweron_status env.poweron_status,
                 Event.apicmdgw_get_cmdid env.APICMDID_GET_DYNAMICPSM
                   (env.get_cmdid env.APICMDID_GET_DYNAMICPSM)] } }) := by
  have hp' : ¬ env.poweron_status < 0 := not_lt.mpr hp
  have ha' : ¬ (settings.isNone = true ∧ callback.isNone = true) := by
    simpa [Option.isNone_iff_eq_none] using ha
  refine ⟨?_, ?_⟩
  · intro hc hv
    simp [lte_getcurrentpsm_impl, Run.emit, ha, ha', hp', hc, hv]
  · intro hc
    simp [lte_getcurrentpsm_impl, Run.emit, ha, ha', hp', hc]

/-- Witness of C12: the asynchronous call with callback 5 under protocol version V4,
and the synchronous call when the identifier does not resolve. -/
theorem C12_v4_delegates_and_unknown_fails_fast_witness :
    (lte_getcurrentpsm_impl env_v4 none (some 5) run0).ret = 41 ∧
    (lte_getcurrentpsm_impl env_v4 none (some 5) run0).run.world.errno = 4 ∧
    (lte_getcurrentpsm_impl env_unknown_cmdid (some lte_psm_setting_t.zero) none run0).ret =
      -ENETDOWN :=
  ⟨((C12_v4_delegates_and_unknown_fails_fast env_v4 none (some 5) run0 (by decide)
      (by decide)).1 (by decide) (by decide)).1,
    congrArg World.errno
      ((C12_v4_delegates_and_unknown_fails_fast env_v4 none (some 5) run0 (by decide)
        (by decide)).1 (by decide) (by decide)).2.2.1,
    congrArg PsmResult.ret
      ((C12_v4_delegates_and_unknown_fails_fast env_unknown_cmdid
        (some lte_psm_setting_t.zero) none run0 (by decide) (by decide)).2 rfl)⟩

/-! ### The pairing of registry entry and status observer -/

end Altcom
